import Mathlib

/-!
Verification development for the Petlibro Home Assistant custom integration.

The Python sources are shallowly embedded: vendor JSON payloads become the
inductive `Val`, Python dictionaries become association lists with pythonic
`get`/`update` semantics, enum classes become Lean inductives carrying their
string names and symbols, and the options-flow / config-flow steps become
total functions (fallible paths return `Option`).  Parts of the repository
that the flow imports but whose defining module is not part of this source
snapshot (the newer `Unit` enum, `ROUNDING_RULES`, the newer `Member`
unit getters) are modelled from the specification and marked as such in
their doc comments.
-/

set_option maxHeartbeats 1000000

namespace Petlibro

/-- Python/JSON scalar values as stored in the vendor data dictionaries. -/
inductive Val where
  | vStr (s : String)
  | vInt (n : Int)
  | vBool (b : Bool)
  | vNone
deriving DecidableEq, Repr

/-- Python truthiness of a `Val` (used by `bool(...)` coercions in getters). -/
def Val.truthy : Val → Bool
  | .vStr s => !s.isEmpty
  | .vInt n => n != 0
  | .vBool b => b
  | .vNone => false

/-- Keys of an association list (the modelled dictionary). -/
def alistKeys {β : Type} (l : List (String × β)) : List String :=
  l.map Prod.fst

/-- Pythonic `dict.get`: the value bound to `k`, if any (first binding wins). -/
def alistGet {β : Type} (l : List (String × β)) (k : String) : Option β :=
  match l with
  | [] => Option.none
  | (k', v) :: t => if k' = k then some v else alistGet t k

/-- Pythonic `dict[k] = v`: bind `k` to `v`, dropping any previous binding. -/
def alistSet {β : Type} (l : List (String × β)) (k : String) (v : β) :
    List (String × β) :=
  (k, v) :: l.filter (fun p => !(p.1 = k : Bool))

/-- Pythonic `old.update(upd)`: store every binding of `upd` into `old`. -/
def dictUpdate {β : Type} (old upd : List (String × β)) : List (String × β) :=
  upd.foldl (fun acc p => alistSet acc p.1 p.2) old

theorem alistGet_set_self {β : Type} (l : List (String × β)) (k : String) (v : β) :
    alistGet (alistSet l k v) k = some v := by
  simp [alistSet, alistGet]

theorem alistKeys_cons {β : Type} (p : String × β) (t : List (String × β)) :
    alistKeys (p :: t) = p.1 :: alistKeys t := rfl

theorem alistGet_filter_ne {β : Type} (l : List (String × β)) (k k' : String)
    (h : k' ≠ k) :
    alistGet (l.filter (fun p => !(p.1 = k : Bool))) k' = alistGet l k' := by
  induction l with
  | nil => rfl
  | cons p t ih =>
    by_cases hp : p.1 = k
    · have hfil : (p :: t).filter (fun q => !(q.1 = k : Bool))
          = t.filter (fun q => !(q.1 = k : Bool)) := by
        simp [List.filter_cons, hp]
      have hne : ¬ p.1 = k' := by rw [hp]; exact fun hh => h hh.symm
      rw [hfil, ih]
      simp [alistGet, hne]
    · have hfil : (p :: t).filter (fun q => !(q.1 = k : Bool))
          = p :: t.filter (fun q => !(q.1 = k : Bool)) := by
        simp [List.filter_cons, hp]
      rw [hfil]
      by_cases hk' : p.1 = k'
      · simp [alistGet, hk']
      · simp [alistGet, hk', ih]

theorem alistGet_set_other {β : Type} (l : List (String × β)) (k k' : String)
    (v : β) (h : k' ≠ k) :
    alistGet (alistSet l k v) k' = alistGet l k' := by
  have hne : ¬ k = k' := fun hh => h hh.symm
  simp only [alistSet, alistGet, if_neg hne]
  exact alistGet_filter_ne l k k' h

theorem dictUpdate_get_notMem {β : Type} (old upd : List (String × β))
    (k : String) (h : k ∉ alistKeys upd) :
    alistGet (dictUpdate old upd) k = alistGet old k := by
  induction upd generalizing old with
  | nil => rfl
  | cons p t ih =>
    rw [alistKeys_cons] at h
    have hk : k ≠ p.1 := fun hh => h (by rw [hh]; exact List.mem_cons_self _ _)
    have ht : k ∉ alistKeys t := fun hh => h (List.mem_cons_of_mem _ hh)
    show alistGet (dictUpdate (alistSet old p.1 p.2) t) k = alistGet old k
    rw [ih _ ht]
    exact alistGet_set_other _ _ _ _ hk

theorem dictUpdate_get_mem {β : Type} (old upd : List (String × β))
    (k : String) (hnd : (alistKeys upd).Nodup) (h : k ∈ alistKeys upd) :
    alistGet (dictUpdate old upd) k = alistGet upd k := by
  induction upd generalizing old with
  | nil => simp [alistKeys] at h
  | cons p t ih =>
    rw [alistKeys_cons] at hnd h
    have hnd2 := List.nodup_cons.mp hnd
    by_cases hk : k = p.1
    · have hnot : k ∉ alistKeys t := by rw [hk]; exact hnd2.1
      have h1 : alistGet (dictUpdate (alistSet old p.1 p.2) t) k
          = alistGet (alistSet old p.1 p.2) k := dictUpdate_get_notMem _ _ _ hnot
      have h2 : alistGet (alistSet old p.1 p.2) k = some p.2 := by
        rw [hk]; exact alistGet_set_self _ _ _
      show alistGet (dictUpdate (alistSet old p.1 p.2) t) k = alistGet (p :: t) k
      rw [h1, h2, alistGet, if_pos hk.symm]
    · have ht : k ∈ alistKeys t := by
        rcases List.mem_cons.mp h with h1 | h1
        · exact absurd h1 hk
        · exact h1
      show alistGet (dictUpdate (alistSet old p.1 p.2) t) k = alistGet (p :: t) k
      rw [ih _ hnd2.2 ht, alistGet, if_neg (fun hh => hk hh.symm)]

/-- ASCII uppercase of a character (Python `str.upper` restricted to the
ASCII identifiers appearing in this integration). -/
def asciiUpperChar (c : Char) : Char :=
  if c.toNat ≥ 97 ∧ c.toNat ≤ 122 then Char.ofNat (c.toNat - 32) else c

/-- ASCII lowercase of a character (Python `str.lower` restricted to the
ASCII identifiers appearing in this integration). -/
def asciiLowerChar (c : Char) : Char :=
  if c.toNat ≥ 65 ∧ c.toNat ≤ 90 then Char.ofNat (c.toNat + 32) else c

/-- Python `s.upper()` over ASCII strings. -/
def strUpper (s : String) : String := ⟨s.data.map asciiUpperChar⟩

/-- Python `s.lower()` over ASCII strings. -/
def strLower (s : String) : String := ⟨s.data.map asciiLowerChar⟩

/-! ## const.py: the `UnitTypes` enum and its defaults (present under src). -/

/-- Weight, feed, and water units (const.py `UnitTypes`, an `IntEnum`). -/
inductive UnitTypes where
  | CUPS
  | OUNCES
  | GRAMS
  | MILLILITERS
  | KILOGRAMS
  | POUNDS
deriving DecidableEq, Repr

/-- Integer value of a `UnitTypes` member (const.py values 1..6). -/
def UnitTypes.val : UnitTypes → Int
  | .CUPS => 1
  | .OUNCES => 2
  | .GRAMS => 3
  | .MILLILITERS => 4
  | .KILOGRAMS => 5
  | .POUNDS => 6

/-- Enum member name, as Python's `.name`. -/
def UnitTypes.name : UnitTypes → String
  | .CUPS => "CUPS"
  | .OUNCES => "OUNCES"
  | .GRAMS => "GRAMS"
  | .MILLILITERS => "MILLILITERS"
  | .KILOGRAMS => "KILOGRAMS"
  | .POUNDS => "POUNDS"

/-- All members of `UnitTypes`. -/
def UnitTypes.all : List UnitTypes :=
  [.CUPS, .OUNCES, .GRAMS, .MILLILITERS, .KILOGRAMS, .POUNDS]

/-- Python `UnitTypes(raw)` lookup by value: succeeds exactly on the stored
values `1..6` (and on `True`, which Python treats as the integer `1`);
any other value raises `ValueError`, modelled as `none`. -/
def unitTypesOfVal : Val → Option UnitTypes
  | .vInt 1 => some .CUPS
  | .vInt 2 => some .OUNCES
  | .vInt 3 => some .GRAMS
  | .vInt 4 => some .MILLILITERS
  | .vInt 5 => some .KILOGRAMS
  | .vInt 6 => some .POUNDS
  | .vBool true => some .CUPS
  | _ => Option.none

/-- const.py `DEFAULT_WEIGHT`. -/
def DEFAULT_WEIGHT : UnitTypes := .POUNDS

/-- const.py `DEFAULT_FEED`. -/
def DEFAULT_FEED : UnitTypes := .CUPS

/-- const.py `DEFAULT_WATER`. -/
def DEFAULT_WATER : UnitTypes := .OUNCES

/-! ## member.py: the `Member` account object (present under src). -/

/-- The `Member` object's stored account data (`self._data`). -/
structure Member where
  data : List (String × Val)
deriving DecidableEq, Repr

/-- Argument passed to `Member.update_data`: either a Python dict or some
other (non-dict) value. -/
inductive PyArg where
  | dict (entries : List (String × Val))
  | nonDict (v : Val)
deriving DecidableEq, Repr

/-- member.py `Member.update_data`: raises `TypeError` (second component
`true`) when the argument is not a dict, leaving the data untouched;
otherwise merges the argument into the stored data via `dict.update`. -/
def Member.update_data (m : Member) (d : PyArg) : Member × Bool :=
  match d with
  | .nonDict _ => (m, true)
  | .dict entries => ({ data := dictUpdate m.data entries }, false)

/-- Whether a `PyArg` is a Python dict. -/
def PyArg.isDict : PyArg → Bool
  | .dict _ => true
  | .nonDict _ => false

/-- member.py `Member._get_unit_type`: reads `key` from the data (defaulting
to the given `UnitTypes` member, i.e. to its own value), looks the raw value
up in `UnitTypes`, and falls back to the default's name on `ValueError`;
the callers lower-case the result. -/
def getUnitType (data : List (String × Val)) (key : String) (dflt : UnitTypes) :
    String :=
  match alistGet data key with
  | Option.none => strLower dflt.name
  | some v =>
    match unitTypesOfVal v with
    | some u => strLower u.name
    | Option.none => strLower dflt.name

/-- member.py `Member.feedUnitType`. -/
def Member.feedUnitType (m : Member) : String :=
  getUnitType m.data "feedUnitType" DEFAULT_FEED

/-- member.py `Member.waterUnitType`. -/
def Member.waterUnitType (m : Member) : String :=
  getUnitType m.data "waterUnitType" DEFAULT_WATER

/-- member.py `Member.weightUnitType`. -/
def Member.weightUnitType (m : Member) : String :=
  getUnitType m.data "weightUnitType" DEFAULT_WEIGHT

/-- Specification-side reading of the unit getters: the stored unit value
when it is a valid `UnitTypes`, and otherwise the given default. -/
def unitTypeStoredOr (data : List (String × Val)) (key : String)
    (dflt : UnitTypes) : UnitTypes :=
  match alistGet data key with
  | some v => (unitTypesOfVal v).getD dflt
  | Option.none => dflt

/-! ## Device states and property getters (granary_smart_camera_feeder.py,
dockstream_smart_rfid_fountain.py, luma_smart_litter_box.py).

Property getters are embedded as state transformers `state → value × state`
so that the claim that reading leaves the device unchanged is a statement
about the embedding, not a triviality of it. -/

/-- State of a `GranarySmartCameraFeeder`: the data dictionary sections the
cited getters read, plus the `_manual_feed_quantity` instance attribute
(initialised to `None` in `__init__`). -/
structure GranaryCameraFeederState where
  realInfo : List (String × Val)
  grainStatus : List (String × Val)
  manualFeedQuantity : Option ℚ
deriving DecidableEq

/-- granary_smart_camera_feeder.py `online`: pure read of
`realInfo["online"]` coerced with `bool(...)`. -/
def GranaryCameraFeederState.online_read (s : GranaryCameraFeederState) :
    Bool × GranaryCameraFeederState :=
  (((alistGet s.realInfo "online").getD (Val.vBool false)).truthy, s)

/-- granary_smart_camera_feeder.py `today_feeding_quantity`: pure read of
`grainStatus["todayFeedingQuantity"]` with default `0`. -/
def GranaryCameraFeederState.today_feeding_quantity_read
    (s : GranaryCameraFeederState) : Val × GranaryCameraFeederState :=
  ((alistGet s.grainStatus "todayFeedingQuantity").getD (Val.vInt 0), s)

/-- granary_smart_camera_feeder.py `manual_feed_quantity` getter: when the
stored quantity is `None` it assigns the default `1` to the attribute
before returning it — the read mutates the device state. -/
def GranaryCameraFeederState.manual_feed_quantity_read
    (s : GranaryCameraFeederState) : ℚ × GranaryCameraFeederState :=
  match s.manualFeedQuantity with
  | Option.none => (1, { s with manualFeedQuantity := some 1 })
  | some q => (q, s)

/-- granary_smart_camera_feeder.py `set_manual_feed_quantity`: stores
`max(1, min(value, 12))` in the attribute. -/
def GranaryCameraFeederState.set_manual_feed_quantity
    (s : GranaryCameraFeederState) (value : ℚ) : GranaryCameraFeederState :=
  { s with manualFeedQuantity := some (max 1 (min value 12)) }

/-- State of a `DockstreamSmartRFIDFountain`: the `realInfo` section. -/
structure DockstreamFountainState where
  realInfo : List (String × Val)
deriving DecidableEq

/-- dockstream_smart_rfid_fountain.py `online`: pure read of
`realInfo["online"]` coerced with `bool(...)`. -/
def DockstreamFountainState.online_read (s : DockstreamFountainState) :
    Bool × DockstreamFountainState :=
  (((alistGet s.realInfo "online").getD (Val.vBool false)).truthy, s)

/-- State of a `LumaSmartLitterBox`: its flat data dictionary. -/
structure LumaLitterBoxState where
  data : List (String × Val)
deriving DecidableEq

/-- luma_smart_litter_box.py `online`: pure read of `data["online"]`
coerced with `bool(...)`. -/
def LumaLitterBoxState.online_read (s : LumaLitterBoxState) :
    Bool × LumaLitterBoxState :=
  (((alistGet s.data "online").getD (Val.vBool false)).truthy, s)

/-! ## select.py: select entity option handling. -/

/-- Values appearing in the `map_value_to_api` mapping table (API strings or
integers). -/
inductive MVal where
  | s (v : String)
  | i (n : Int)
deriving DecidableEq, Repr

/-- select.py `map_value_to_api` mapping table, one inner dict per key. -/
def select_mappings (key : String) : List (String × MVal) :=
  if key = "lid_speed" then
    [("Slow", .s "SLOW"), ("Medium", .s "MEDIUM"), ("Fast", .s "FAST")]
  else if key = "lid_mode" then
    [("Open Mode (Stays Open Until Closed)", .s "KEEP_OPEN"),
     ("Personal Mode (Opens on Detection)", .s "CUSTOM")]
  else if key = "display_icon" then
    [("Heart", .i 5), ("Dog", .i 6), ("Cat", .i 7), ("Elk", .i 8)]
  else if key = "vacuum_mode" then
    [("Study", .s "LEARNING"), ("Normal", .s "NORMAL"), ("Manual", .s "MANUAL")]
  else if key = "plate_position" then
    [("Plate 1", .i 1), ("Plate 2", .i 2), ("Plate 3", .i 3)]
  else []

/-- select.py `PetLibroSelectEntity.map_value_to_api`:
`mappings.get(key, {}).get(current_selection, "unknown")`. -/
def map_value_to_api (key current_selection : String) : MVal :=
  (alistGet (select_mappings key) current_selection).getD (.s "unknown")

/-- Description of a select entity: its `key`, `options_list` and optional
`current_selection` callback, which may raise (modelled with `Except`).
A device here is its bag of readable property values. -/
structure SelectDesc where
  key : String
  optionsList : List String
  currentSelection : Option (List (String × String) → Except String String)

/-- select.py `PetLibroSelectEntity.options`: the description's
`options_list`, or `[]` when it is empty. -/
def selectOptions (d : SelectDesc) : List String :=
  if d.optionsList = [] then [] else d.optionsList

/-- Check `self._attr_current_option in self.options` for a possibly
unset or `None`-valued attribute. -/
def attrValid (opts : List String) : Option String → Bool
  | some s => decide (s ∈ opts)
  | Option.none => false

/-- select.py `PetLibroSelectEntity.current_option`: prefers a previously
set `_attr_current_option` when it is among the options; otherwise asks the
`current_selection` callback (errors become `None`, out-of-list labels
become `None`); otherwise falls back to `getattr(device, key, None)`,
again filtered against the options. -/
def current_option (d : SelectDesc) (hasAttr : Bool) (attrVal : Option String)
    (dev : List (String × String)) : Option String :=
  let opts := selectOptions d
  if hasAttr && attrValid opts attrVal then
    attrVal
  else
    match d.currentSelection with
    | some cs =>
      match cs dev with
      | Except.ok st => if st ∈ opts then some st else Option.none
      | Except.error _ => Option.none
    | Option.none =>
      match alistGet dev d.key with
      | Option.none => Option.none
      | some st => if st ∈ opts then some st else Option.none

/-! ## config_flow.py: setup and reauth form schemas, login validation. -/

/-- A voluptuous schema field: its name, whether it is `vol.Required`, and
an optional `vol.In` whitelist of allowed values. -/
structure SchemaField where
  name : String
  required : Bool
  allowedValues : Option (List String)
deriving DecidableEq, Repr

/-- config_flow.py `STEP_USER_DATA_SCHEMA`: region (constrained to "US"),
email and password, all required. -/
def STEP_USER_DATA_SCHEMA : List SchemaField :=
  [⟨"region", true, some ["US"]⟩,
   ⟨"email", true, Option.none⟩,
   ⟨"password", true, Option.none⟩]

/-- config_flow.py `async_step_reauth_confirm` form schema: password only. -/
def REAUTH_CONFIRM_SCHEMA : List SchemaField :=
  [⟨"password", true, Option.none⟩]

/-- Outcome of `PetLibroAPI.login` as observed by `_validate_input`:
a token on success, or one of the caught exception classes. -/
inductive LoginResult where
  | success (token : String)
  | cannotConnect
  | invalidAuth
  | otherError
deriving DecidableEq, Repr

/-- config_flow.py `PetlibroConfigFlow._validate_input`: maps the login
outcome to a form error code, the empty string meaning success. -/
def validate_input : LoginResult → String
  | .success _ => ""
  | .cannotConnect => "cannot_connect"
  | .invalidAuth => "invalid_auth"
  | .otherError => "unknown"

/-- The token stored on `self.token` by a successful `_validate_input`. -/
def loginToken : LoginResult → String
  | .success t => t
  | _ => ""

/-- Data of a created config entry. -/
structure EntryData where
  region : String
  email : String
  password : String
  api_token : String
deriving DecidableEq, Repr

/-- Result of `async_step_user`. -/
inductive UserStepResult where
  | createEntry (title : String) (data : EntryData)
  | showForm (errors : List (String × String))
  | abortDuplicate
deriving DecidableEq, Repr

/-- config_flow.py `PetlibroConfigFlow.async_step_user`: with no input,
shows the empty form; with input, aborts on a duplicate email, otherwise
creates the entry when `_validate_input` succeeds and re-shows the form
with the error code as base error otherwise. -/
def async_step_user (existingEmails : List String)
    (input : Option (String × String × String)) (login : LoginResult) :
    UserStepResult :=
  match input with
  | Option.none => .showForm []
  | some (region, email, password) =>
    if email ∈ existingEmails then .abortDuplicate
    else if validate_input login = "" then
      .createEntry email ⟨region, email, password, loginToken login⟩
    else
      .showForm [("base", validate_input login)]

/-! ## Options flow (config_flow.py `PetlibroOptionsFlow`).

config_flow.py imports `Unit`, `APIKey` and `ROUNDING_RULES` from a newer
const.py, and reads `Member` unit/gender getters that return enum members
(`getattr(self.member, ...).lower`, `.device_class`); those definitions are
not part of this source snapshot, so they are modelled from the spec as
string-valued enums whose members compare equal to their lowercase names
(the change-detection and the cascade in config_flow.py itself are embedded
from the source). -/

/-- Modelled from the spec: the newer const.py `Gender` enum (missing from
src; src only has the older `IntEnum` version), a string-valued enum whose
`lower` is the member's lowercase name. -/
inductive Gender where
  | NONE
  | MALE
  | FEMALE
deriving DecidableEq, Repr

/-- Lowercase name of a `Gender` member (its `.lower`). -/
def Gender.lower : Gender → String
  | .NONE => "none"
  | .MALE => "male"
  | .FEMALE => "female"

/-- Modelled from the spec: the newer const.py `Unit` enum (missing from
src), the measurement units offered by the options form, with symbols and
Home Assistant device classes. -/
inductive Unit where
  | CUPS
  | OUNCES
  | GRAMS
  | MILLILITERS
  | KILOGRAMS
  | POUNDS
  | WATER_OUNCES
  | WATER_MILLILITERS
deriving DecidableEq, Repr

/-- Lowercase name of a `Unit` member (its `.lower`). -/
def Unit.lower : Unit → String
  | .CUPS => "cups"
  | .OUNCES => "ounces"
  | .GRAMS => "grams"
  | .MILLILITERS => "milliliters"
  | .KILOGRAMS => "kilograms"
  | .POUNDS => "pounds"
  | .WATER_OUNCES => "water_ounces"
  | .WATER_MILLILITERS => "water_milliliters"

/-- Modelled from the spec: unit symbol pushed to the entity registry as
`unit_of_measurement` (Home Assistant unit strings). -/
def Unit.symbol : Unit → String
  | .CUPS => "cup"
  | .OUNCES => "oz"
  | .GRAMS => "g"
  | .MILLILITERS => "mL"
  | .KILOGRAMS => "kg"
  | .POUNDS => "lb"
  | .WATER_OUNCES => "fl. oz."
  | .WATER_MILLILITERS => "mL"

/-- Modelled from the spec: sensor device class of a unit ("weight" for the
mass units, "volume" for the volume units). -/
def Unit.deviceClass : Unit → String
  | .CUPS => "volume"
  | .OUNCES => "weight"
  | .GRAMS => "weight"
  | .MILLILITERS => "volume"
  | .KILOGRAMS => "weight"
  | .POUNDS => "weight"
  | .WATER_OUNCES => "volume"
  | .WATER_MILLILITERS => "volume"

/-- Lookup of a `Unit` member by its uppercase enum name. -/
def unitFromUpperName (s : String) : Option Unit :=
  if s = "CUPS" then some .CUPS
  else if s = "OUNCES" then some .OUNCES
  else if s = "GRAMS" then some .GRAMS
  else if s = "MILLILITERS" then some .MILLILITERS
  else if s = "KILOGRAMS" then some .KILOGRAMS
  else if s = "POUNDS" then some .POUNDS
  else if s = "WATER_OUNCES" then some .WATER_OUNCES
  else if s = "WATER_MILLILITERS" then some .WATER_MILLILITERS
  else Option.none

/-- Lookup of a `Gender` member by its uppercase enum name. -/
def genderFromUpperName (s : String) : Option Gender :=
  if s = "NONE" then some .NONE
  else if s = "MALE" then some .MALE
  else if s = "FEMALE" then some .FEMALE
  else Option.none

/-- The newer const.py `APIKey` values used by the options flow, as they
appear in form data and vendor payloads. -/
def APIKey.NICKNAME : String := "nickname"

/-- APIKey.GENDER. -/
def APIKey.GENDER : String := "gender"

/-- APIKey.FEED_UNIT. -/
def APIKey.FEED_UNIT : String := "feedUnitType"

/-- APIKey.WATER_UNIT. -/
def APIKey.WATER_UNIT : String := "waterUnitType"

/-- APIKey.WEIGHT_UNIT. -/
def APIKey.WEIGHT_UNIT : String := "weightUnitType"

/-- Python values flowing through the options form and `collect_updates`:
strings, enum members, `None`, booleans and integers. -/
inductive PVal where
  | str (s : String)
  | gender (g : Gender)
  | unit (u : Unit)
  | vnone
  | bool (b : Bool)
  | int (n : Int)
deriving DecidableEq, Repr

/-- Python `==` on the values above: strings compare by content, the
string-valued enum members compare equal to their value strings, `True`
compares equal to `1`, and `None` only to itself. -/
def pvEq : PVal → PVal → Bool
  | .str s, .str t => s = t
  | .str s, .unit u => s = u.lower
  | .unit u, .str s => s = u.lower
  | .str s, .gender g => s = g.lower
  | .gender g, .str s => s = g.lower
  | .unit u, .unit v => u = v
  | .gender g, .gender h => g = h
  | .unit u, .gender g => u.lower = g.lower
  | .gender g, .unit u => u.lower = g.lower
  | .vnone, .vnone => true
  | .bool a, .bool b => a = b
  | .int m, .int n => m = n
  | .bool a, .int n => (if a then (1 : Int) else 0) = n
  | .int n, .bool a => n = (if a then (1 : Int) else 0)
  | _, _ => false

/-- Python `str(...)` of a `PVal` (as used by `validate_enum`). -/
def PVal.pyStr : PVal → String
  | .str s => s
  | .gender g => g.lower
  | .unit u => u.lower
  | .vnone => "None"
  | .bool b => if b then "True" else "False"
  | .int n => toString n

/-- Python truthiness of a `PVal` (as used by `v or ""`). -/
def PVal.truthy : PVal → Bool
  | .str s => !s.isEmpty
  | .gender _ => true
  | .unit _ => true
  | .vnone => false
  | .bool b => b
  | .int n => n != 0

/-- config_flow.py `validate_enum` specialised to `Unit`: an enum member is
returned as is, otherwise `str(value).upper()` is looked up among the
member names; unknown values yield `None`. -/
def validate_enum_unit (v : PVal) : Option PVal :=
  match v with
  | .unit u => some (.unit u)
  | _ =>
    match unitFromUpperName (strUpper v.pyStr) with
    | some u => some (.unit u)
    | Option.none => Option.none

/-- config_flow.py `validate_enum` specialised to `Gender`. -/
def validate_enum_gender (v : PVal) : Option PVal :=
  match v with
  | .gender g => some (.gender g)
  | _ =>
    match genderFromUpperName (strUpper v.pyStr) with
    | some g => some (.gender g)
    | Option.none => Option.none

/-- Member account state as read by the options flow.  Modelled from the
spec: the newer `Member` (missing from src) exposes `nickname` as a string
and the gender/unit getters as enum members. -/
structure MemberState where
  nickname : String
  gender : Gender
  feedUnit : Unit
  waterUnit : Unit
  weightUnit : Unit
deriving DecidableEq, Repr

/-- Python `getattr(self.member, api_key, SENTINEL)` over the five account
fields handled by the options flow (`none` is the sentinel). -/
def getattrMember (m : MemberState) (k : String) : Option PVal :=
  if k = APIKey.NICKNAME then some (.str m.nickname)
  else if k = APIKey.GENDER then some (.gender m.gender)
  else if k = APIKey.FEED_UNIT then some (.unit m.feedUnit)
  else if k = APIKey.WATER_UNIT then some (.unit m.waterUnit)
  else if k = APIKey.WEIGHT_UNIT then some (.unit m.weightUnit)
  else Option.none

/-- Member unit getter by API key, as a `Unit` (used by the cascade's
`getattr(self.member, unit_type, None)`). -/
def memberUnit (m : MemberState) (k : String) : Option Unit :=
  if k = APIKey.FEED_UNIT then some m.feedUnit
  else if k = APIKey.WATER_UNIT then some m.waterUnit
  else if k = APIKey.WEIGHT_UNIT then some m.weightUnit
  else Option.none

/-- Conversion used by `collect_updates` for the measurement-unit call
(`enum_cls=Unit`): a `none` result means the field is skipped. -/
def convUnit (_k : String) (v : PVal) : Option PVal :=
  validate_enum_unit v

/-- Conversions used by `collect_updates` for the account-info call
(the `special` lambdas for nickname and gender); the result is always
used, `validate_enum` failures becoming the Python value `None`. -/
def convInfo (k : String) (v : PVal) : Option PVal :=
  if k = APIKey.NICKNAME then some (if v.truthy then v else .str "")
  else if k = APIKey.GENDER then
    some ((validate_enum_gender v).getD .vnone)
  else some v

/-- One iteration of the `collect_updates` loop for a single API key:
skip on an unsupported key, skip when the form value equals the current
value, convert, skip enum failures, and record the converted value when it
still differs from the current value. -/
def collectOne (m : MemberState) (conv : String → PVal → Option PVal)
    (user_input : List (String × PVal)) (k : String) :
    List (String × PVal) :=
  match getattrMember m k with
  | Option.none => []
  | some current =>
    let form := (alistGet user_input k).getD .vnone
    if pvEq form current then []
    else
      match conv k form with
      | Option.none => []
      | some api => if pvEq api current then [] else [(k, api)]

/-- config_flow.py `PetlibroOptionsFlow.collect_updates`. -/
def collect_updates (m : MemberState) (conv : String → PVal → Option PVal)
    (user_input : List (String × PVal)) (fields : List String) :
    List (String × PVal) :=
  fields.foldl (fun acc k => acc ++ collectOne m conv user_input k) []

/-- Entity-registry options pushed for a sensor by the cascade. -/
structure SensorOptions where
  unit_of_measurement : String
  display_precision : Nat
  suggested_display_precision : Nat
deriving DecidableEq, Repr

/-- Target units per device class for one unit type: when
`update_all_units` is set and the type is the feed unit, both the weight
and the volume sensor groups receive a unit (the chosen one for its own
class, grams respectively milliliters for the other); otherwise only the
chosen unit's own class. -/
def targetUnits (allUnits : Bool) (ut : String) (u : Unit) :
    List (String × Unit) :=
  if allUnits ∧ ut = APIKey.FEED_UNIT then
    [("weight", if u.deviceClass = "weight" then u else .GRAMS),
     ("volume", if u.deviceClass = "volume" then u else .MILLILITERS)]
  else
    [(u.deviceClass, u)]

/-- Registry pushes of the cascade for one `unit_type` of the hub map
(config_flow.py `async_step_account_settings`, registry loop body).
`rules` is `ROUNDING_RULES` (newer const.py, missing from src), kept
abstract as a partial map from units to precisions.  A `none` result is
the `AttributeError` raised when `update_all_units` forces processing of a
unit type that resolves to no `Unit`. -/
def pushesForType (rules : Unit → Option Nat) (m : MemberState)
    (upd : List (String × Unit)) (allUnits : Bool) (ut : String)
    (groups : List (String × List String)) :
    Option (List (String × SensorOptions)) :=
  let unitRes : Option Unit :=
    match alistGet upd ut with
    | some u => some u
    | Option.none => memberUnit m ut
  match unitRes with
  | Option.none => if allUnits then Option.none else some []
  | some u =>
    if ((alistGet upd ut).isNone ∨ u.deviceClass = "") ∧ ¬allUnits then
      some []
    else
      some ((targetUnits allUnits ut u).flatMap fun p =>
        let precision := (rules p.2).getD 0
        ((alistGet groups p.1).getD []).map fun uid =>
          (uid, ⟨p.2.symbol, precision, precision⟩))

/-- Full registry cascade over the hub's `unit_sensor_unique_ids` map, in
iteration order. -/
def cascadePushes (rules : Unit → Option Nat) (m : MemberState)
    (upd : List (String × Unit)) (allUnits : Bool) :
    List (String × List (String × List String)) →
    Option (List (String × SensorOptions))
  | [] => some []
  | (ut, groups) :: rest => do
    let here ← pushesForType rules m upd allUnits ut groups
    let tail ← cascadePushes rules m upd allUnits rest
    pure (here ++ tail)

/-- Outcome of one `async_step_account_settings` submission: the registry
pushes performed, the arguments of the `member_update_info` call when it
was issued, and the abort reason shown. -/
structure AccountSettingsResult where
  pushes : List (String × SensorOptions)
  call : Option (List (String × PVal) × List (String × PVal))
  reason : String
deriving DecidableEq, Repr

/-- Gate in front of the registry cascade: it only runs when a unit
preference changed or `update_all_units` is checked; the unit updates are
passed down as the `Unit` members stored by `collect_updates`. -/
def cascadeGate (rules : Unit → Option Nat) (m : MemberState)
    (update_setting : List (String × PVal)) (allUnits : Bool)
    (hub : List (String × List (String × List String))) :
    Option (List (String × SensorOptions)) :=
  if update_setting ≠ [] ∨ allUnits then
    cascadePushes rules m
      (update_setting.filterMap fun p =>
        match p.2 with
        | PVal.unit u => some (p.1, u)
        | _ => Option.none)
      allUnits hub
  else some []

/-- The three measurement-unit fields diffed by the options flow. -/
def unitFields : List String :=
  [APIKey.FEED_UNIT, APIKey.WATER_UNIT, APIKey.WEIGHT_UNIT]

/-- The two account-info fields diffed by the options flow. -/
def infoFields : List String :=
  [APIKey.NICKNAME, APIKey.GENDER]

/-- config_flow.py `async_step_account_settings` on a submitted form:
collects the unit and info updates, runs the registry cascade when a unit
changed or `update_all_units` is checked, aborts with
`account_update_nochanges` (suffixed with `_update_sensors` when
`update_all_units` was checked) when nothing changed, and otherwise calls
`member_update_info` and reports success or failure. -/
def accountSettingsStep (rules : Unit → Option Nat) (m : MemberState)
    (info_input setting_input : List (String × PVal)) (allUnits : Bool)
    (hub : List (String × List (String × List String))) (apiOk : Bool) :
    Option AccountSettingsResult :=
  let update_setting := collect_updates m convUnit setting_input unitFields
  let update_info := collect_updates m convInfo info_input infoFields
  match cascadeGate rules m update_setting allUnits hub with
  | Option.none => Option.none
  | some pushes =>
    if update_info = [] ∧ update_setting = [] then
      some ⟨pushes, Option.none,
        "account_update_nochanges" ++ (if allUnits then "_update_sensors" else "")⟩
    else
      some ⟨pushes, some (update_info, update_setting),
        if apiOk then "account_update_success" else "error_check_logs"⟩

/-- The form input for the account-info section built from typed values:
an optional nickname string and a gender dropdown selection. -/
def infoInput (nickIn : Option String) (gIn : Gender) :
    List (String × PVal) :=
  [(APIKey.NICKNAME, match nickIn with
    | some s => PVal.str s
    | Option.none => PVal.vnone),
   (APIKey.GENDER, PVal.str gIn.lower)]

/-- The form input for the measurement-unit section built from the three
dropdown selections. -/
def settingInput (fIn wIn wtIn : Unit) : List (String × PVal) :=
  [(APIKey.FEED_UNIT, PVal.str fIn.lower),
   (APIKey.WATER_UNIT, PVal.str wIn.lower),
   (APIKey.WEIGHT_UNIT, PVal.str wtIn.lower)]

/-- Specification side of C1: the account-info updates contain exactly the
fields whose converted value (nickname defaulted to the empty string,
gender resolved to its enum member) differs from the member's current
value. -/
def infoUpdatesSpec (m : MemberState) (nickIn : Option String) (gIn : Gender) :
    List (String × PVal) :=
  (if nickIn.getD "" ≠ m.nickname
    then [(APIKey.NICKNAME, PVal.str (nickIn.getD ""))] else []) ++
  (if gIn ≠ m.gender then [(APIKey.GENDER, PVal.gender gIn)] else [])

/-- Specification side of C1: the measurement-unit updates contain exactly
the fields whose selected unit differs from the member's current unit. -/
def settingUpdatesSpec (m : MemberState) (fIn wIn wtIn : Unit) :
    List (String × PVal) :=
  (if fIn ≠ m.feedUnit then [(APIKey.FEED_UNIT, PVal.unit fIn)] else []) ++
  (if wIn ≠ m.waterUnit then [(APIKey.WATER_UNIT, PVal.unit wIn)] else []) ++
  (if wtIn ≠ m.weightUnit then [(APIKey.WEIGHT_UNIT, PVal.unit wtIn)] else [])

/-- Specification side of C2, following the claim's words: for each unit
type of the hub map, the chosen unit (the updated one, else the member's
current one); when the preference changed or `update_all_units` is
checked, every registered sensor unique id of each target device class is
pushed options carrying the target unit's symbol and the `ROUNDING_RULES`
precision (0 when the unit has no entry) as both display precisions. -/
def cascadeClaim (rules : Unit → Option Nat) (m : MemberState)
    (upd : List (String × Unit)) (allUnits : Bool)
    (hub : List (String × List (String × List String))) :
    List (String × SensorOptions) :=
  hub.flatMap fun e =>
    match (alistGet upd e.1).orElse (fun _ => memberUnit m e.1) with
    | Option.none => []
    | some u =>
      if (alistGet upd e.1).isSome ∨ allUnits then
        (targetUnits allUnits e.1 u).flatMap fun p =>
          let precision := (rules p.2).getD 0
          ((alistGet e.2 p.1).getD []).map fun uid =>
            (uid, ⟨p.2.symbol, precision, precision⟩)
      else []

/-! ## number.py: the manual-feed-quantity number entity. -/

/-- Modelled from the spec: const.py `MAX_FEED_PORTIONS` (missing from
src), the maximum number of portions of a manual feed, matching the `12`
upper clamp of `set_manual_feed_quantity`. -/
def MAX_FEED_PORTIONS : ℚ := 12

/-- Rounding of a rational to `p` decimal places (Python `round(x, p)` as
used by `Unit.round`; the model rounds halves up where Python rounds them
to even, which does not affect the half-ulp bound proved about it). -/
def roundPrec (p : Nat) (x : ℚ) : ℚ :=
  ((round (x * (10 : ℚ) ^ p) : ℤ) : ℚ) / (10 : ℚ) ^ p

/-- Modelled from the spec: `Unit.convert_feed` (newer const.py, missing
from src) scales between portions and the member's physical feed unit:
`from_unit = None` means the input is in portions, `to_unit = None` means
the output is in portions, and each unit's `factor` is the amount of that
unit per portion; when `do_round` is set the result is rounded at the
unit's `ROUNDING_RULES` precision. -/
def convert_feed (factor : Unit → ℚ) (rules : Unit → Option Nat) (v : ℚ)
    (fromUnit toUnit : Option Unit) (doRound : Bool) : ℚ :=
  let portions :=
    match fromUnit with
    | Option.none => v
    | some u => v / factor u
  match toUnit with
  | Option.none => portions
  | some u =>
    if doRound then roundPrec ((rules u).getD 0) (portions * factor u)
    else portions * factor u

/-- number.py manual-feed-quantity `value_fn`: the device's stored portion
count converted into the member's feed unit (with rounding) when portion
mode is off, and the raw portion count when portion mode is on.  Reading
goes through the `manual_feed_quantity` getter. -/
def manualFeedValue (factor : Unit → ℚ) (rules : Unit → Option Nat)
    (portionsEnabled : Bool) (u : Unit) (s : GranaryCameraFeederState) :
    ℚ × GranaryCameraFeederState :=
  let r := s.manual_feed_quantity_read
  (if portionsEnabled then r.1
   else convert_feed factor rules r.1 Option.none (some u) true, r.2)

/-- number.py manual-feed-quantity `method`: the submitted value converted
from the member's feed unit back to portions (unchanged in portion mode)
and stored through `set_manual_feed_quantity`. -/
def manualFeedSet (factor : Unit → ℚ) (rules : Unit → Option Nat)
    (portionsEnabled : Bool) (u : Unit) (s : GranaryCameraFeederState)
    (v : ℚ) : GranaryCameraFeederState :=
  s.set_manual_feed_quantity
    (if portionsEnabled then v
     else convert_feed factor rules v (some u) Option.none false)

/-! ## Helper lemmas. -/

theorem getUnitType_eq (data : List (String × Val)) (key : String)
    (dflt : UnitTypes) :
    getUnitType data key dflt = strLower (unitTypeStoredOr data key dflt).name := by
  unfold getUnitType unitTypeStoredOr
  cases h : alistGet data key with
  | none => rfl
  | some v => cases h2 : unitTypesOfVal v <;> simp [h2]

theorem unitTypes_name_lower_mem (u : UnitTypes) :
    strLower u.name ∈ UnitTypes.all.map (fun w => strLower w.name) := by
  cases u <;> decide

/-! ## Helper lemmas for the options flow. -/

theorem unit_lower_inj (u v : Unit) : u.lower = v.lower ↔ u = v := by
  cases u <;> cases v <;> decide

theorem gender_lower_inj (g h : Gender) : g.lower = h.lower ↔ g = h := by
  cases g <;> cases h <;> decide

theorem validate_enum_unit_lower (u : Unit) :
    validate_enum_unit (.str u.lower) = some (.unit u) := by
  cases u <;> decide

theorem validate_enum_gender_lower (g : Gender) :
    validate_enum_gender (.str g.lower) = some (.gender g) := by
  cases g <;> decide

theorem deviceClass_ne (u : Unit) : u.deviceClass ≠ "" := by
  cases u <;> decide

theorem collectOne_nickname (m : MemberState) (nickIn : Option String)
    (gIn : Gender) :
    collectOne m convInfo (infoInput nickIn gIn) APIKey.NICKNAME
      = if nickIn.getD "" ≠ m.nickname
        then [(APIKey.NICKNAME, PVal.str (nickIn.getD ""))] else [] := by
  cases nickIn with
  | none =>
    by_cases hn : ("" : String) = m.nickname <;>
      simp +decide [collectOne, convInfo, getattrMember, infoInput, alistGet,
        pvEq, PVal.truthy, APIKey.NICKNAME, APIKey.GENDER, hn]
  | some s =>
    by_cases hs : s = m.nickname
    · simp +decide [collectOne, convInfo, getattrMember, infoInput, alistGet,
        pvEq, PVal.truthy, APIKey.NICKNAME, APIKey.GENDER, hs]
    · by_cases hse : s = ""
      · subst hse
        simp +decide [collectOne, convInfo, getattrMember, infoInput, alistGet,
          pvEq, PVal.truthy, APIKey.NICKNAME, APIKey.GENDER, hs]
      · have hne : s.isEmpty = false := by
          rw [Bool.eq_false_iff]
          intro hh
          exact hse ((String.isEmpty_iff s).mp hh)
        simp +decide [collectOne, convInfo, getattrMember, infoInput, alistGet,
          pvEq, PVal.truthy, APIKey.NICKNAME, APIKey.GENDER, hs, hne]

theorem collectOne_gender (m : MemberState) (nickIn : Option String)
    (gIn : Gender) :
    collectOne m convInfo (infoInput nickIn gIn) APIKey.GENDER
      = if gIn ≠ m.gender then [(APIKey.GENDER, PVal.gender gIn)] else [] := by
  by_cases hg : gIn = m.gender <;>
    simp +decide [collectOne, convInfo, getattrMember, infoInput, alistGet,
      pvEq, validate_enum_gender_lower, gender_lower_inj,
      APIKey.NICKNAME, APIKey.GENDER, hg]

theorem collectOne_feed (m : MemberState) (fIn wIn wtIn : Unit) :
    collectOne m convUnit (settingInput fIn wIn wtIn) APIKey.FEED_UNIT
      = if fIn ≠ m.feedUnit then [(APIKey.FEED_UNIT, PVal.unit fIn)] else [] := by
  by_cases hu : fIn = m.feedUnit <;>
    simp +decide [collectOne, convUnit, getattrMember, settingInput, alistGet,
      pvEq, validate_enum_unit_lower, unit_lower_inj, APIKey.NICKNAME,
      APIKey.GENDER, APIKey.FEED_UNIT, APIKey.WATER_UNIT, APIKey.WEIGHT_UNIT, hu]

theorem collectOne_water (m : MemberState) (fIn wIn wtIn : Unit) :
    collectOne m convUnit (settingInput fIn wIn wtIn) APIKey.WATER_UNIT
      = if wIn ≠ m.waterUnit then [(APIKey.WATER_UNIT, PVal.unit wIn)] else [] := by
  by_cases hu : wIn = m.waterUnit <;>
    simp +decide [collectOne, convUnit, getattrMember, settingInput, alistGet,
      pvEq, validate_enum_unit_lower, unit_lower_inj, APIKey.NICKNAME,
      APIKey.GENDER, APIKey.FEED_UNIT, APIKey.WATER_UNIT, APIKey.WEIGHT_UNIT, hu]

theorem collectOne_weight (m : MemberState) (fIn wIn wtIn : Unit) :
    collectOne m convUnit (settingInput fIn wIn wtIn) APIKey.WEIGHT_UNIT
      = if wtIn ≠ m.weightUnit then [(APIKey.WEIGHT_UNIT, PVal.unit wtIn)] else [] := by
  by_cases hu : wtIn = m.weightUnit <;>
    simp +decide [collectOne, convUnit, getattrMember, settingInput, alistGet,
      pvEq, validate_enum_unit_lower, unit_lower_inj, APIKey.NICKNAME,
      APIKey.GENDER, APIKey.FEED_UNIT, APIKey.WATER_UNIT, APIKey.WEIGHT_UNIT, hu]

theorem collect_info_eq (m : MemberState) (nickIn : Option String)
    (gIn : Gender) :
    collect_updates m convInfo (infoInput nickIn gIn) infoFields
      = infoUpdatesSpec m nickIn gIn := by
  show ([] ++ collectOne m convInfo (infoInput nickIn gIn) APIKey.NICKNAME)
      ++ collectOne m convInfo (infoInput nickIn gIn) APIKey.GENDER = _
  rw [collectOne_nickname, collectOne_gender]
  simp [infoUpdatesSpec]

theorem collect_setting_eq (m : MemberState) (fIn wIn wtIn : Unit) :
    collect_updates m convUnit (settingInput fIn wIn wtIn) unitFields
      = settingUpdatesSpec m fIn wIn wtIn := by
  show (([] ++ collectOne m convUnit (settingInput fIn wIn wtIn) APIKey.FEED_UNIT)
      ++ collectOne m convUnit (settingInput fIn wIn wtIn) APIKey.WATER_UNIT)
      ++ collectOne m convUnit (settingInput fIn wIn wtIn) APIKey.WEIGHT_UNIT = _
  rw [collectOne_feed, collectOne_water, collectOne_weight]
  simp [settingUpdatesSpec]

theorem pushesForType_eq (rules : Unit → Option Nat) (m : MemberState)
    (upd : List (String × Unit)) (allUnits : Bool) (ut : String)
    (groups : List (String × List String))
    (hm : (memberUnit m ut).isSome) :
    pushesForType rules m upd allUnits ut groups
      = some (match (alistGet upd ut).orElse (fun _ => memberUnit m ut) with
        | Option.none => []
        | some u =>
          if (alistGet upd ut).isSome ∨ allUnits then
            (targetUnits allUnits ut u).flatMap fun p =>
              let precision := (rules p.2).getD 0
              ((alistGet groups p.1).getD []).map fun uid =>
                (uid, ⟨p.2.symbol, precision, precision⟩)
          else [] : List (String × SensorOptions)) := by
  unfold pushesForType
  cases hget : alistGet upd ut with
  | some u =>
    have hdc := deviceClass_ne u
    cases allUnits <;> simp [hget, Option.orElse, hdc]
  | none =>
    obtain ⟨mu, hmu⟩ := Option.isSome_iff_exists.mp hm
    cases allUnits <;> simp [hget, hmu, Option.orElse]

theorem cascadePushes_eq (rules : Unit → Option Nat) (m : MemberState)
    (upd : List (String × Unit)) (allUnits : Bool)
    (hub : List (String × List (String × List String)))
    (hhub : ∀ e ∈ hub, (memberUnit m e.1).isSome) :
    cascadePushes rules m upd allUnits hub
      = some (cascadeClaim rules m upd allUnits hub) := by
  induction hub with
  | nil => rfl
  | cons e rest ih =>
    obtain ⟨ut, groups⟩ := e
    have h1 := pushesForType_eq rules m upd allUnits ut groups
      (hhub ⟨ut, groups⟩ (List.mem_cons_self _ _))
    have h2 := ih (fun x hx => hhub x (List.mem_cons_of_mem _ hx))
    show (pushesForType rules m upd allUnits ut groups >>= fun here =>
      cascadePushes rules m upd allUnits rest >>= fun tail =>
        pure (here ++ tail)) = _
    rw [h1, h2]
    simp [cascadeClaim]

theorem cascadeGate_some (rules : Unit → Option Nat) (m : MemberState)
    (update_setting : List (String × PVal)) (allUnits : Bool)
    (hub : List (String × List (String × List String)))
    (hhub : ∀ e ∈ hub, (memberUnit m e.1).isSome) :
    ∃ cp, cascadeGate rules m update_setting allUnits hub = some cp := by
  unfold cascadeGate
  by_cases hgate : update_setting ≠ [] ∨ allUnits = true
  · rw [if_pos hgate]
    exact ⟨_, cascadePushes_eq rules m _ allUnits hub hhub⟩
  · rw [if_neg hgate]
    exact ⟨[], rfl⟩

/-! ## C1: change detection before account updates. -/

/-- C1: on a submitted account-settings form, `member_update_info` is
issued if and only if at least one submitted field (nickname, gender,
feed/water/weight unit) differs, after conversion, from the member's
current value; the updates dictionaries passed to it contain exactly the
fields whose converted value differs from the current value (with those
converted values); and when no field differs the flow aborts with reason
`account_update_nochanges`, suffixed with `_update_sensors` when
`update_all_units` was checked, without calling `member_update_info`. -/
theorem C1_account_update_change_detection (rules : Unit → Option Nat)
    (m : MemberState) (nickIn : Option String) (gIn : Gender)
    (fIn wIn wtIn : Unit) (allUnits : Bool)
    (hub : List (String × List (String × List String))) (apiOk : Bool)
    (hhub : ∀ e ∈ hub, (memberUnit m e.1).isSome) :
    ∃ pushes, accountSettingsStep rules m (infoInput nickIn gIn)
        (settingInput fIn wIn wtIn) allUnits hub apiOk
      = some ⟨pushes,
          (if infoUpdatesSpec m nickIn gIn = []
              ∧ settingUpdatesSpec m fIn wIn wtIn = []
           then Option.none
           else some (infoUpdatesSpec m nickIn gIn,
             settingUpdatesSpec m fIn wIn wtIn)),
          (if infoUpdatesSpec m nickIn gIn = []
              ∧ settingUpdatesSpec m fIn wIn wtIn = []
           then "account_update_nochanges"
             ++ (if allUnits then "_update_sensors" else "")
           else (if apiOk then "account_update_success"
             else "error_check_logs"))⟩ := by
  obtain ⟨cp, hcp⟩ := cascadeGate_some rules m
    (settingUpdatesSpec m fIn wIn wtIn) allUnits hub hhub
  refine ⟨cp, ?_⟩
  simp only [accountSettingsStep, collect_info_eq, collect_setting_eq, hcp]
  by_cases hempty : infoUpdatesSpec m nickIn gIn = []
      ∧ settingUpdatesSpec m fIn wIn wtIn = []
  · simp [hempty]
  · simp [hempty]

/-- Witness for C1: changing only the nickname issues the update call with
exactly that field and reports success. -/
theorem C1_account_update_change_detection_witness :
    ∃ pushes, accountSettingsStep (fun _ => Option.none)
        ⟨"bob", .MALE, .CUPS, .WATER_OUNCES, .POUNDS⟩
        (infoInput (some "alice") .MALE)
        (settingInput .CUPS .WATER_OUNCES .POUNDS) false [] true
      = some ⟨pushes, some ([(APIKey.NICKNAME, PVal.str "alice")], []),
          "account_update_success"⟩ := by
  have h := C1_account_update_change_detection (fun _ => Option.none)
    ⟨"bob", .MALE, .CUPS, .WATER_OUNCES, .POUNDS⟩ (some "alice") .MALE
    .CUPS .WATER_OUNCES .POUNDS false [] true (by simp)
  simpa +decide [infoUpdatesSpec, settingUpdatesSpec] using h

/-! ## C2: registry cascade on unit-preference change. -/

/-- C2: whenever a measurement-unit preference changed (or
`update_all_units` is checked), the cascade pushes, for every registered
sensor unique id of each affected unit type, entity-registry options whose
`unit_of_measurement` is the chosen unit's symbol and whose
`display_precision` and `suggested_display_precision` both equal the
`ROUNDING_RULES` entry for that unit (0 when absent); with
`update_all_units` and the feed unit type, both the weight and the volume
sensor groups receive a target unit — the chosen feed unit for its own
device class, grams respectively milliliters for the other.  The code's
cascade equals the claim-worded `cascadeClaim` whenever the hub's unit
types are the member's unit attributes. -/
theorem C2_registry_cascade (rules : Unit → Option Nat) (m : MemberState)
    (upd : List (String × Unit)) (allUnits : Bool)
    (hub : List (String × List (String × List String)))
    (hhub : ∀ e ∈ hub, (memberUnit m e.1).isSome) :
    cascadePushes rules m upd allUnits hub
      = some (cascadeClaim rules m upd allUnits hub) :=
  cascadePushes_eq rules m upd allUnits hub hhub

/-- Witness for C2: switching the feed unit to grams with
`update_all_units` pushes the gram symbol and precision to the weight
group and milliliters to the volume group. -/
theorem C2_registry_cascade_witness :
    cascadePushes (fun u => if u = .GRAMS then some 1 else Option.none)
        ⟨"", .NONE, .CUPS, .WATER_OUNCES, .POUNDS⟩
        [(APIKey.FEED_UNIT, .GRAMS)] true
        [(APIKey.FEED_UNIT, [("weight", ["uidW"]), ("volume", ["uidV"])])]
      = some (cascadeClaim (fun u => if u = .GRAMS then some 1 else Option.none)
          ⟨"", .NONE, .CUPS, .WATER_OUNCES, .POUNDS⟩
          [(APIKey.FEED_UNIT, .GRAMS)] true
          [(APIKey.FEED_UNIT, [("weight", ["uidW"]), ("volume", ["uidV"])])]) :=
  C2_registry_cascade (fun u => if u = .GRAMS then some 1 else Option.none)
    ⟨"", .NONE, .CUPS, .WATER_OUNCES, .POUNDS⟩
    [(APIKey.FEED_UNIT, .GRAMS)] true
    [(APIKey.FEED_UNIT, [("weight", ["uidW"]), ("volume", ["uidV"])])]
    (by decide)

/-! ## C3: manual-feed-quantity scaling round trip. -/

theorem roundPrec_close (p : Nat) (x : ℚ) :
    |roundPrec p x - x| ≤ 1 / (2 * (10 : ℚ) ^ p) := by
  have hp : (0 : ℚ) < (10 : ℚ) ^ p := by positivity
  have hr : |((round (x * (10 : ℚ) ^ p) : ℤ) : ℚ) - x * (10 : ℚ) ^ p| ≤ 1 / 2 := by
    rw [abs_sub_comm]
    exact abs_sub_round (x * (10 : ℚ) ^ p)
  have heq : roundPrec p x - x
      = (((round (x * (10 : ℚ) ^ p) : ℤ) : ℚ) - x * (10 : ℚ) ^ p)
        / (10 : ℚ) ^ p := by
    field_simp [roundPrec]
    ring
  have hhalf : (1 : ℚ) / (2 * (10 : ℚ) ^ p) = (1 / 2) / (10 : ℚ) ^ p := by
    ring
  rw [heq, abs_div, abs_of_pos hp, hhalf]
  exact (div_le_div_iff_of_pos_right hp).mpr hr

/-- C3: with portion mode disabled, the manual-feed number entity converts
the stored portion count into the member's feed unit on read and converts
a submitted value back to portions before storing, so setting any value on
the entity's scale (an integral number `k ∈ [1, 12]` of portion steps,
i.e. `v = k * factor`) and reading back returns `v` up to the entity's
declared rounding: the read value is exactly `v` rounded at the unit's
`ROUNDING_RULES` precision, hence within half an ulp of `v`; with portion
mode enabled the value passes through unconverted. -/
theorem C3_manual_feed_round_trip (factor : Unit → ℚ)
    (rules : Unit → Option Nat) (u : Unit) (hf : 0 < factor u) (k : ℕ)
    (h1 : 1 ≤ k) (h12 : k ≤ 12) (s : GranaryCameraFeederState) :
    (manualFeedValue factor rules false u
        (manualFeedSet factor rules false u s ((k : ℚ) * factor u))).1
      = roundPrec ((rules u).getD 0) ((k : ℚ) * factor u) ∧
    |(manualFeedValue factor rules false u
        (manualFeedSet factor rules false u s ((k : ℚ) * factor u))).1
        - (k : ℚ) * factor u|
      ≤ 1 / (2 * (10 : ℚ) ^ ((rules u).getD 0)) ∧
    (∀ v : ℚ, 1 ≤ v → v ≤ 12 →
      (manualFeedValue factor rules true u
        (manualFeedSet factor rules true u s v)).1 = v) := by
  have hconv : ((k : ℚ) * factor u) / factor u = (k : ℚ) :=
    mul_div_cancel_right₀ _ (ne_of_gt hf)
  have hmin : min ((k : ℚ)) 12 = (k : ℚ) := min_eq_left (by exact_mod_cast h12)
  have hmax : max 1 ((k : ℚ)) = (k : ℚ) := max_eq_right (by
    exact_mod_cast h1)
  have hstored : (manualFeedSet factor rules false u s
        ((k : ℚ) * factor u)).manualFeedQuantity = some ((k : ℚ)) := by
    simp [manualFeedSet, GranaryCameraFeederState.set_manual_feed_quantity,
      convert_feed, hconv, hmin, hmax]
  have hval : (manualFeedValue factor rules false u
      (manualFeedSet factor rules false u s ((k : ℚ) * factor u))).1
      = roundPrec ((rules u).getD 0) ((k : ℚ) * factor u) := by
    simp [manualFeedValue, GranaryCameraFeederState.manual_feed_quantity_read,
      hstored, convert_feed]
  refine ⟨hval, ?_, ?_⟩
  · rw [hval]
    exact roundPrec_close _ _
  · intro v hv1 hv2
    have hminv : min v 12 = v := min_eq_left hv2
    have hmaxv : max 1 v = v := max_eq_right hv1
    simp [manualFeedValue, manualFeedSet,
      GranaryCameraFeederState.set_manual_feed_quantity,
      GranaryCameraFeederState.manual_feed_quantity_read, hminv, hmaxv]

/-- Witness for C3 in portion mode with unit factor 1: setting 2 portions
reads back 2. -/
theorem C3_manual_feed_round_trip_witness :
    (manualFeedValue (fun _ => 1) (fun _ => Option.none) true Unit.CUPS
      (manualFeedSet (fun _ => 1) (fun _ => Option.none) true Unit.CUPS
        ⟨[], [], Option.none⟩ 2)).1 = 2 :=
  (C3_manual_feed_round_trip (fun _ => 1) (fun _ => Option.none) Unit.CUPS
    (by norm_num) 3 (by norm_num) (by norm_num)
    ⟨[], [], Option.none⟩).2.2 2 (by norm_num) (by norm_num)

/-! ## C4: config-flow form fields. -/

/-- C4: the initial setup form's schema requires exactly the three fields
region, email, and password, with region constrained to the value "US",
and the reauthentication confirm form's schema requires exactly the single
field password. -/
theorem C4_config_flow_form_fields :
    STEP_USER_DATA_SCHEMA.map SchemaField.name = ["region", "email", "password"] ∧
    (∀ f ∈ STEP_USER_DATA_SCHEMA, f.required = true) ∧
    (∀ f ∈ STEP_USER_DATA_SCHEMA, f.name = "region" → f.allowedValues = some ["US"]) ∧
    (∀ f ∈ STEP_USER_DATA_SCHEMA, f.name ≠ "region" → f.allowedValues = Option.none) ∧
    REAUTH_CONFIRM_SCHEMA.map SchemaField.name = ["password"] ∧
    (∀ f ∈ REAUTH_CONFIRM_SCHEMA, f.required = true ∧ f.allowedValues = Option.none) := by
  refine ⟨rfl, ?_, ?_, ?_, rfl, ?_⟩ <;> decide

/-- Witness for C4 at a concrete field. -/
theorem C4_config_flow_form_fields_witness :
    (⟨"region", true, some ["US"]⟩ : SchemaField).required = true :=
  C4_config_flow_form_fields.2.1 ⟨"region", true, some ["US"]⟩ (by decide)

/-! ## C5: login-error surfacing. -/

/-- C5: `_validate_input` returns "cannot_connect" exactly on
`PetLibroCannotConnect`, "invalid_auth" exactly on `PetLibroInvalidAuth`,
"unknown" on any other exception and "" on success; `async_step_user`
creates a config entry containing region, email, password and the obtained
token if and only if `_validate_input` returns "", and otherwise re-shows
the form with the returned code as base error (given that no existing
entry matches the email, which would abort beforehand). -/
theorem C5_login_error_surfacing (existing : List String)
    (region email password : String) (login : LoginResult)
    (hdup : email ∉ existing) :
    (∀ t, validate_input (.success t) = "") ∧
    validate_input .cannotConnect = "cannot_connect" ∧
    validate_input .invalidAuth = "invalid_auth" ∧
    validate_input .otherError = "unknown" ∧
    (async_step_user existing (some (region, email, password)) login
        = .createEntry email ⟨region, email, password, loginToken login⟩
      ↔ validate_input login = "") ∧
    (validate_input login ≠ "" →
      async_step_user existing (some (region, email, password)) login
        = .showForm [("base", validate_input login)]) := by
  refine ⟨fun t => rfl, rfl, rfl, rfl, ?_, ?_⟩ <;>
    cases login <;> simp [async_step_user, validate_input, hdup, loginToken]

/-- Witness for C5: a fresh email with a successful login creates the
entry with the obtained token. -/
theorem C5_login_error_surfacing_witness :
    async_step_user [] (some ("US", "a@b.c", "pw")) (.success "tok")
      = .createEntry "a@b.c" ⟨"US", "a@b.c", "pw", "tok"⟩ :=
  (C5_login_error_surfacing [] "US" "a@b.c" "pw" (.success "tok")
    (by simp)).2.2.2.2.1.mpr rfl

/-! ## C6: passthrough property reads. -/

/-- C6 counterexample: the `GranarySmartCameraFeeder.manual_feed_quantity`
getter cited by the claim mutates the device on first read — with the
quantity attribute still `None`, reading it stores the default `1`, so the
state after the read differs from the state before it. -/
theorem C6_counterexample :
    (GranaryCameraFeederState.manual_feed_quantity_read
        ⟨[], [], Option.none⟩).2
      ≠ (⟨[], [], Option.none⟩ : GranaryCameraFeederState) := by
  decide

/-- C6 (amended): every embedded property getter is a pure view over the
data refreshed by the latest poll — reading leaves the device state
unchanged — except `GranarySmartCameraFeeder.manual_feed_quantity`, which
on first read initialises the unset quantity attribute to the default 1;
even that getter never touches the polled data dictionaries and is
idempotent, so any further read returns the same value and leaves the
state unchanged. -/
theorem C6_property_reads_frame :
    (∀ s : GranaryCameraFeederState, s.online_read.2 = s) ∧
    (∀ s : GranaryCameraFeederState, s.today_feeding_quantity_read.2 = s) ∧
    (∀ s : DockstreamFountainState, s.online_read.2 = s) ∧
    (∀ s : LumaLitterBoxState, s.online_read.2 = s) ∧
    (∀ s : GranaryCameraFeederState,
      s.manual_feed_quantity_read.2.realInfo = s.realInfo ∧
      s.manual_feed_quantity_read.2.grainStatus = s.grainStatus ∧
      s.manual_feed_quantity_read.2.manual_feed_quantity_read
        = (s.manual_feed_quantity_read.1, s.manual_feed_quantity_read.2)) := by
  refine ⟨fun s => rfl, fun s => rfl, fun s => rfl, fun s => rfl, fun s => ?_⟩
  cases h : s.manualFeedQuantity <;>
    simp [GranaryCameraFeederState.manual_feed_quantity_read, h]

/-! ## C7: Member.update_data contract. -/

/-- C7: `Member.update_data(d)` raises `TypeError` exactly when `d` is not
a dict, leaving the stored data unchanged when it raises; when `d` is a
dict, afterwards every key present in `d` maps to `d`'s value and every
stored key not present in `d` keeps its previous value. -/
theorem C7_member_update_data (m : Member) (d : PyArg)
    (hnd : ∀ entries, d = PyArg.dict entries → (alistKeys entries).Nodup) :
    ((m.update_data d).2 = true ↔ d.isDict = false) ∧
    ((m.update_data d).2 = true → (m.update_data d).1 = m) ∧
    (∀ entries, d = PyArg.dict entries →
      ∀ k, alistGet (m.update_data d).1.data k =
        if k ∈ alistKeys entries then alistGet entries k
        else alistGet m.data k) := by
  refine ⟨?_, ?_, ?_⟩
  · cases d <;> simp [Member.update_data, PyArg.isDict]
  · cases d with
    | nonDict v => intro _; rfl
    | dict entries => intro h; simp [Member.update_data] at h
  · intro entries he k
    subst he
    show alistGet (dictUpdate m.data entries) k = _
    by_cases hk : k ∈ alistKeys entries
    · rw [if_pos hk]
      exact dictUpdate_get_mem m.data entries k (hnd entries rfl) hk
    · rw [if_neg hk]
      exact dictUpdate_get_notMem m.data entries k hk

/-- Witness for C7: merging `{a: 2, b: 3}` into `{a: 1}` overwrites `a`. -/
theorem C7_member_update_data_witness :
    alistGet ((Member.mk [("a", Val.vInt 1)]).update_data
        (PyArg.dict [("a", Val.vInt 2), ("b", Val.vInt 3)])).1.data "a"
      = if "a" ∈ alistKeys [("a", Val.vInt 2), ("b", Val.vInt 3)]
        then alistGet [("a", Val.vInt 2), ("b", Val.vInt 3)] "a"
        else alistGet [("a", Val.vInt 1)] "a" :=
  (C7_member_update_data ⟨[("a", Val.vInt 1)]⟩
      (PyArg.dict [("a", Val.vInt 2), ("b", Val.vInt 3)])
      (fun entries h => by cases h; decide)).2.2
    [("a", Val.vInt 2), ("b", Val.vInt 3)] rfl "a"

/-! ## C8: unit-getter totality. -/

/-- C8: for every stored account data dictionary, `Member.feedUnitType`,
`Member.waterUnitType` and `Member.weightUnitType` always return the
lowercase name of a valid `UnitTypes` member — the stored unit value's
name when that value is a valid `UnitTypes`, and otherwise the name of the
respective default (CUPS for feed, OUNCES for water, POUNDS for weight);
in the embedding the `try`/`except ValueError` of `_get_unit_type` is what
makes the getters total. -/
theorem C8_unit_getter_totality (m : Member) :
    (m.feedUnitType
        = strLower (unitTypeStoredOr m.data "feedUnitType" UnitTypes.CUPS).name
      ∧ m.feedUnitType ∈ UnitTypes.all.map (fun w => strLower w.name)) ∧
    (m.waterUnitType
        = strLower (unitTypeStoredOr m.data "waterUnitType" UnitTypes.OUNCES).name
      ∧ m.waterUnitType ∈ UnitTypes.all.map (fun w => strLower w.name)) ∧
    (m.weightUnitType
        = strLower (unitTypeStoredOr m.data "weightUnitType" UnitTypes.POUNDS).name
      ∧ m.weightUnitType ∈ UnitTypes.all.map (fun w => strLower w.name)) := by
  refine ⟨⟨getUnitType_eq _ _ _, ?_⟩, ⟨getUnitType_eq _ _ _, ?_⟩,
    ⟨getUnitType_eq _ _ _, ?_⟩⟩
  · show getUnitType m.data "feedUnitType" DEFAULT_FEED ∈ _
    rw [getUnitType_eq]
    exact unitTypes_name_lower_mem _
  · show getUnitType m.data "waterUnitType" DEFAULT_WATER ∈ _
    rw [getUnitType_eq]
    exact unitTypes_name_lower_mem _
  · show getUnitType m.data "weightUnitType" DEFAULT_WEIGHT ∈ _
    rw [getUnitType_eq]
    exact unitTypes_name_lower_mem _

/-! ## C9: manual-feed clamp invariant. -/

/-- C9: `set_manual_feed_quantity(v)` stores `v` clamped to the closed
interval [1, 12], so after the call the stored quantity lies in that
range; and the `manual_feed_quantity` getter never returns `None` — when
no quantity has been set it returns the default 1. -/
theorem C9_manual_feed_clamp (s : GranaryCameraFeederState) (v : ℚ) :
    (s.set_manual_feed_quantity v).manualFeedQuantity
        = some (max 1 (min v 12)) ∧
    (1 : ℚ) ≤ max 1 (min v 12) ∧ max 1 (min v 12) ≤ (12 : ℚ) ∧
    s.manual_feed_quantity_read.1 = s.manualFeedQuantity.getD 1 := by
  refine ⟨rfl, le_max_left _ _, max_le (by norm_num) (min_le_right _ _), ?_⟩
  cases h : s.manualFeedQuantity <;>
    simp [GranaryCameraFeederState.manual_feed_quantity_read, h]

/-! ## C10: select option invariant. -/

/-- Any member of the effective options list is a member of the
description's `options_list`. -/
theorem selectOptions_subset (d : SelectDesc) (x : String)
    (h : x ∈ selectOptions d) : x ∈ d.optionsList := by
  unfold selectOptions at h
  by_cases he : d.optionsList = []
  · rw [if_pos he] at h
    cases h
  · rwa [if_neg he] at h

/-- Fallback branches of `current_option` (callback, then key attribute)
only produce members of the options list. -/
theorem current_option_tail_mem (d : SelectDesc)
    (dev : List (String × String)) (o : String)
    (h : (match d.currentSelection with
      | some cs =>
        match cs dev with
        | Except.ok st => if st ∈ selectOptions d then some st else Option.none
        | Except.error _ => Option.none
      | Option.none =>
        match alistGet dev d.key with
        | Option.none => Option.none
        | some st => if st ∈ selectOptions d then some st else Option.none)
      = some o) :
    o ∈ d.optionsList := by
  cases hcs : d.currentSelection with
  | some cs =>
    simp only [hcs] at h
    cases hres : cs dev with
    | ok st =>
      simp only [hres] at h
      by_cases hmem : st ∈ selectOptions d
      · rw [if_pos hmem] at h
        cases h
        exact selectOptions_subset _ _ hmem
      · rw [if_neg hmem] at h
        cases h
    | error e => simp [hres] at h
  | none =>
    simp only [hcs] at h
    cases hg : alistGet dev d.key with
    | none => simp [hg] at h
    | some st =>
      simp only [hg] at h
      by_cases hmem : st ∈ selectOptions d
      · rw [if_pos hmem] at h
        cases h
        exact selectOptions_subset _ _ hmem
      · rw [if_neg hmem] at h
        cases h

/-- C10: `current_option` returns either a member of the entity's options
list or `None` — a stored or computed state that is not among the options,
or a raising `current_selection` callback, yields `None` rather than an
out-of-list value or an exception; and `map_value_to_api` returns
"unknown" for every (key, selection) pair absent from its mapping
table. -/
theorem C10_select_option_invariant :
    (∀ (d : SelectDesc) (hasAttr : Bool) (attrVal : Option String)
        (dev : List (String × String)) (o : String),
      current_option d hasAttr attrVal dev = some o → o ∈ d.optionsList) ∧
    (∀ k sel, alistGet (select_mappings k) sel = Option.none →
      map_value_to_api k sel = MVal.s "unknown") := by
  constructor
  · intro d hasAttr attrVal dev o h
    simp only [current_option] at h
    by_cases hcond : (hasAttr && attrValid (selectOptions d) attrVal) = true
    · rw [if_pos hcond] at h
      cases attrVal with
      | none => simp [attrValid] at hcond
      | some s =>
        cases h
        have hmem : o ∈ selectOptions d := by
          have h2 := (Bool.and_eq_true_iff.mp hcond).2
          simpa [attrValid] using h2
        exact selectOptions_subset _ _ hmem
    · rw [if_neg hcond] at h
      exact current_option_tail_mem d dev o h
  · intro k sel h
    unfold map_value_to_api
    rw [h]
    rfl

/-- Witness for C10 at concrete inputs: a state among the options is
returned and kept in-list, and an unmapped pair yields "unknown". -/
theorem C10_select_option_invariant_witness :
    "Slow" ∈ (SelectDesc.mk "k" ["Slow", "Medium"] Option.none).optionsList ∧
    map_value_to_api "nope" "x" = MVal.s "unknown" :=
  ⟨C10_select_option_invariant.1 ⟨"k", ["Slow", "Medium"], Option.none⟩
      false Option.none [("k", "Slow")] "Slow" rfl,
   C10_select_option_invariant.2 "nope" "x" rfl⟩

end Petlibro
